import Mathlib

/-!
Verification development for the quadruped-robot simulation loop
(`RobotController` / `RigidBodyObject` frame callbacks).

The per-frame callback of `RobotController` is embedded as the function
`tick`, split into `resolveIntent` (command-queue / keyboard intent
resolution, lines 140-192 of the source), `physicsStep` (yaw, horizontal
movement with collision rejection, vertical integration and ground clamp,
lines 196-256) and `computeGait` (gait overlay, lines 262-284).  The
queue-installation effect (lines 115-124) is `installQueue`, and the
per-frame callback of `RigidBodyObject` (lines 339-360) is `objTick`.

Numbers are modelled as exact rationals.  The trigonometric functions and
the constant pi of the host math library are abstracted as a record
`MathFns` of unintepreted rational functions, since no claim depends on
their values; every theorem below is universally quantified over it.
Telemetry/stats emission (display-only) and the visual lerp smoothing of
`Leg` are outside every claim and are not modelled.
-/

namespace RoboticsLab

-- Movement & Physics Constants (source lines 14-23)
def MOVE_SPEED : ℚ := 1.5
def ROT_SPEED : ℚ := 2.0
def GAIT_FREQ : ℚ := 12
def GAIT_AMP : ℚ := 0.4
def GRAVITY : ℚ := 20.0
def JUMP_FORCE : ℚ := 8.0
def GROUND_Y : ℚ := 0.55
def ROBOT_COLLISION_RADIUS : ℚ := 0.35
def OBJECT_COLLISION_RADIUS : ℚ := 0.25
def COLLISION_DIST : ℚ := ROBOT_COLLISION_RADIUS + OBJECT_COLLISION_RADIUS

/-- The 12-key named joint-angle map (`JointState`), one angle per joint. -/
structure JointState where
  FL_hip : ℚ
  FL_thigh : ℚ
  FL_calf : ℚ
  FR_hip : ℚ
  FR_thigh : ℚ
  FR_calf : ℚ
  BL_hip : ℚ
  BL_thigh : ℚ
  BL_calf : ℚ
  BR_hip : ℚ
  BR_thigh : ℚ
  BR_calf : ℚ
deriving DecidableEq

/-- A queued robot command.  `type` is an open string tag in the source
(unknown tags are possible), `duration` and `targetJoints` are optional. -/
structure RobotCommand where
  type : String
  duration : Option ℚ
  targetJoints : Option JointState
  description : Option String
deriving DecidableEq

/-- A tracked dynamic-object position (an entry of `objectTracker`). -/
structure Vec3 where
  x : ℚ
  y : ℚ
  z : ℚ
deriving DecidableEq

/-- Held-key state for the keys the controller reads (source lines 186-191). -/
structure KeyState where
  keyW : Bool
  keyS : Bool
  keyA : Bool
  keyD : Bool
  keyJ : Bool
  arrowUp : Bool
  arrowDown : Bool
  arrowLeft : Bool
  arrowRight : Bool
deriving DecidableEq

/-- Abstracted host math library: sin, cos and pi as uninterpreted
rational functions (`Math.sin`, `Math.cos`, `Math.PI` in the source). -/
structure MathFns where
  sin : ℚ → ℚ
  cos : ℚ → ℚ
  pi : ℚ

/-- The mutable state owned by `RobotController`: position, yaw, vertical
velocity, and the command-execution bookkeeping refs (source lines 99-108). -/
structure RobotState where
  x : ℚ
  y : ℚ
  z : ℚ
  rot : ℚ
  vv : ℚ
  cmdIndex : ℕ
  cmdStartTime : ℚ
  isExecuting : Bool
  lastQueueLength : ℕ
deriving DecidableEq

/-- Result of the command-execution / manual-input section of a tick
(source lines 140-192).  `earlyJoints = some tj` records the early
`return` taken when a `SET_JOINTS` command with `targetJoints` starts:
the pose `tj` is emitted and the rest of the tick is skipped. -/
structure IntentResult where
  earlyJoints : Option JointState
  forward : ℚ
  turn : ℚ
  jump : Bool
  state : RobotState
  cleared : Bool
deriving DecidableEq

/-- Result of one whole frame callback of `RobotController`. -/
structure TickResult where
  state : RobotState
  updatedJoints : Option JointState
  queueCleared : Bool
  rendered : Option JointState
deriving DecidableEq

/-- JS `cmd.duration || 1.0` (source line 167): a missing or zero
duration falls back to 1.0. -/
def durationOrDefault (cmd : RobotCommand) : ℚ :=
  match cmd.duration with
  | none => 1.0
  | some d => if d = 0 then 1.0 else d

/-- The timed-command section (source lines 165-179): commands other than
`SET_JOINTS` and `JUMP` drive `forward`/`turn` while `elapsed < duration`
and advance the queue index once `elapsed >= duration`.  `jump` carries
the flag possibly set by a starting `JUMP` command. -/
def timedPhase (cmd : RobotCommand) (now : ℚ) (jump : Bool) (s : RobotState) : IntentResult :=
  if cmd.type ≠ "SET_JOINTS" ∧ cmd.type ≠ "JUMP" then
    let elapsed := now - s.cmdStartTime
    let duration := durationOrDefault cmd
    if elapsed < duration then
      { earlyJoints := none
        forward := if cmd.type = "MOVE_FORWARD" then 1
                   else if cmd.type = "MOVE_BACKWARD" then -1 else 0
        turn := if cmd.type = "TURN_LEFT" then 1
                else if cmd.type = "TURN_RIGHT" then -1 else 0
        jump := jump
        state := s
        cleared := false }
    else
      { earlyJoints := none, forward := 0, turn := 0, jump := jump
        state := { s with cmdIndex := s.cmdIndex + 1, cmdStartTime := 0 }
        cleared := false }
  else
    { earlyJoints := none, forward := 0, turn := 0, jump := jump
      state := s, cleared := false }

/-- Manual keyboard intent (source lines 185-192): later key assignments
override earlier ones, `J` requests a jump. -/
def keysResult (k : KeyState) (s : RobotState) (cleared : Bool) : IntentResult :=
  { earlyJoints := none
    forward := if k.keyS = true ∨ k.arrowDown = true then -1
               else if k.keyW = true ∨ k.arrowUp = true then 1 else 0
    turn := if k.keyD = true ∨ k.arrowRight = true then -1
            else if k.keyA = true ∨ k.arrowLeft = true then 1 else 0
    jump := k.keyJ
    state := s
    cleared := cleared }

/-- Source lines 140-192: command execution when `isExecuting` and the
index is in bounds (stamping `commandStartTime`, immediate `SET_JOINTS` /
`JUMP` handling, timed handling), queue-completion transition, and
manual keyboard input otherwise.  The keyboard block (line 185) is
guarded by `!isExecuting`, which in the in-bounds branch is always false
since that branch never clears `isExecuting`. -/
def resolveIntent (queue : List RobotCommand) (keys : KeyState) (now : ℚ)
    (s : RobotState) : IntentResult :=
  if hin : s.isExecuting = true ∧ s.cmdIndex < queue.length then
    let cmd := queue.get ⟨s.cmdIndex, hin.2⟩
    if s.cmdStartTime = 0 then
      if cmd.type = "SET_JOINTS" ∧ cmd.targetJoints.isSome = true then
        { earlyJoints := cmd.targetJoints, forward := 0, turn := 0, jump := false
          state := { s with cmdIndex := s.cmdIndex + 1, cmdStartTime := 0 }
          cleared := false }
      else if cmd.type = "JUMP" then
        timedPhase cmd now true { s with cmdIndex := s.cmdIndex + 1, cmdStartTime := 0 }
      else
        timedPhase cmd now false { s with cmdStartTime := now }
    else
      timedPhase cmd now false s
  else if s.isExecuting = true then
    keysResult keys { s with isExecuting := false } true
  else
    keysResult keys s false

/-- The collision test of source lines 216-233: some tracked object is
strictly within `COLLISION_DIST` of the candidate planar position and
strictly within 0.5 of the robot's current height. -/
def collides (objects : List Vec3) (robotY nextX nextZ : ℚ) : Prop :=
  ∃ objPos ∈ objects,
    (nextX - objPos.x) * (nextX - objPos.x) + (nextZ - objPos.z) * (nextZ - objPos.z)
        < COLLISION_DIST ^ 2 ∧
    |robotY - objPos.y| < 0.5

instance (objects : List Vec3) (robotY nextX nextZ : ℚ) :
    Decidable (collides objects robotY nextX nextZ) := by
  unfold collides
  exact List.decidableBEx _ objects

/-- The physics update of source lines 196-256: yaw, collision-gated
horizontal movement, jump impulse, gravity, vertical integration and the
ground clamp. -/
def physicsStep (M : MathFns) (objects : List Vec3) (delta : ℚ)
    (forward turn : ℚ) (jump : Bool) (s : RobotState) : RobotState :=
  let rot1 := if turn ≠ 0 then s.rot + turn * ROT_SPEED * delta else s.rot
  let moveDist := forward * MOVE_SPEED * delta
  let nextX := s.x + M.sin rot1 * moveDist
  let nextZ := s.z + M.cos rot1 * moveDist
  let x1 := if forward ≠ 0 then
              (if collides objects s.y nextX nextZ then s.x else nextX)
            else s.x
  let z1 := if forward ≠ 0 then
              (if collides objects s.y nextX nextZ then s.z else nextZ)
            else s.z
  let vv0 := if jump = true ∧ s.y ≤ GROUND_Y + 0.01 then JUMP_FORCE else s.vv
  let vv1 := vv0 - GRAVITY * delta
  let y1 := s.y + vv1 * delta
  let y2 := if y1 < GROUND_Y then GROUND_Y else y1
  let vv2 := if y1 < GROUND_Y then 0 else vv1
  { s with rot := rot1, x := x1, z := z1, y := y2, vv := vv2 }

/-- The gait overlay of source lines 262-284, computed fresh from the
base pose: airborne tuck, diagonal-pair sine gait while moving, base
pose otherwise. -/
def computeGait (M : MathFns) (base : JointState) (time : ℚ)
    (isInAir : Bool) (isMoving : Bool) : JointState :=
  if isInAir then
    { base with
        FL_thigh := 0.8, FR_thigh := 0.8, BL_thigh := 0.8, BR_thigh := 0.8
        FL_calf := -1.8, FR_calf := -1.8, BL_calf := -1.8, BR_calf := -1.8 }
  else if isMoving then
    let p1 := M.sin (time * GAIT_FREQ)
    let p2 := M.sin (time * GAIT_FREQ + M.pi)
    let l1 := max 0 p1 * 0.5
    let l2 := max 0 p2 * 0.5
    { base with
        FL_thigh := base.FL_thigh + p1 * GAIT_AMP
        BR_thigh := base.BR_thigh + p1 * GAIT_AMP
        FR_thigh := base.FR_thigh + p2 * GAIT_AMP
        BL_thigh := base.BL_thigh + p2 * GAIT_AMP
        FL_calf := base.FL_calf - l1
        BR_calf := base.BR_calf - l1
        FR_calf := base.FR_calf - l2
        BL_calf := base.BL_calf - l2 }
  else base

/-- One whole frame callback of `RobotController` (source lines 137-295):
intent resolution, then — unless the early `SET_JOINTS` return was taken —
the physics step and the gait overlay on the base pose. -/
def tick (M : MathFns) (queue : List RobotCommand) (keys : KeyState)
    (objects : List Vec3) (now delta : ℚ) (base : JointState)
    (s : RobotState) : TickResult :=
  let r := resolveIntent queue keys now s
  match r.earlyJoints with
  | some tj =>
      { state := r.state, updatedJoints := some tj
        queueCleared := r.cleared, rendered := none }
  | none =>
      let isMoving := decide (r.forward ≠ 0 ∨ r.turn ≠ 0)
      let s2 := physicsStep M objects delta r.forward r.turn r.jump r.state
      let isInAir := decide (s2.y > GROUND_Y + 0.1)
      { state := s2, updatedJoints := none, queueCleared := r.cleared
        rendered := some (computeGait M base now isInAir isMoving) }

/-- The queue-installation effect of source lines 115-124: a changed,
non-empty queue length (re)starts execution; an empty queue forces
`isExecuting` off; `lastQueueLength` always tracks the new length. -/
def installQueue (queue : List RobotCommand) (s : RobotState) : RobotState :=
  let s1 :=
    if queue.length > 0 ∧ queue.length ≠ s.lastQueueLength then
      { s with cmdIndex := 0, cmdStartTime := 0, isExecuting := true }
    else if queue.length = 0 then
      { s with isExecuting := false }
    else s
  { s1 with lastQueueLength := queue.length }

/-- State owned by one `RigidBodyObject`: position and vertical velocity. -/
structure ObjState where
  x : ℚ
  y : ℚ
  z : ℚ
  velocity : ℚ
deriving DecidableEq

/-- One frame callback of `RigidBodyObject` (source lines 339-360):
integrate only while airborne or moving; on ground penetration snap to
the rest threshold 0.15, reflect the velocity with restitution 0.4, and
zero it below the 0.5 rest floor. -/
def objTick (delta : ℚ) (s : ObjState) : ObjState :=
  if s.y > 0.1501 ∨ |s.velocity| > 0.01 then
    let v1 := s.velocity - GRAVITY * delta
    let y1 := s.y + v1 * delta
    if y1 < 0.15 then
      let v2 := -v1 * 0.4
      { s with y := 0.15, velocity := if |v2| < 0.5 then 0 else v2 }
    else
      { s with y := y1, velocity := v1 }
  else s

/-! ### Helper lemmas -/

/-- The timed-command section never touches the physical fields. -/
theorem timedPhase_phys (cmd : RobotCommand) (now : ℚ) (jump : Bool) (s : RobotState) :
    (timedPhase cmd now jump s).state.x = s.x ∧
    (timedPhase cmd now jump s).state.y = s.y ∧
    (timedPhase cmd now jump s).state.z = s.z ∧
    (timedPhase cmd now jump s).state.rot = s.rot ∧
    (timedPhase cmd now jump s).state.vv = s.vv := by
  simp only [timedPhase]
  split_ifs <;> exact ⟨rfl, rfl, rfl, rfl, rfl⟩

/-- Intent resolution never touches the physical fields of the state. -/
theorem resolveIntent_phys (queue : List RobotCommand) (keys : KeyState)
    (now : ℚ) (s : RobotState) :
    (resolveIntent queue keys now s).state.x = s.x ∧
    (resolveIntent queue keys now s).state.y = s.y ∧
    (resolveIntent queue keys now s).state.z = s.z ∧
    (resolveIntent queue keys now s).state.rot = s.rot ∧
    (resolveIntent queue keys now s).state.vv = s.vv := by
  simp only [resolveIntent]
  split_ifs <;>
    first
      | exact timedPhase_phys _ _ _ _
      | exact ⟨rfl, rfl, rfl, rfl, rfl⟩

/-- Characterization of a tick on which intent resolution completes
(no early `SET_JOINTS` return). -/
theorem tick_eq_none (M : MathFns) (queue : List RobotCommand) (keys : KeyState)
    (objects : List Vec3) (now delta : ℚ) (base : JointState) (s : RobotState)
    (hE : (resolveIntent queue keys now s).earlyJoints = none) :
    tick M queue keys objects now delta base s =
      { state := physicsStep M objects delta (resolveIntent queue keys now s).forward
                   (resolveIntent queue keys now s).turn
                   (resolveIntent queue keys now s).jump
                   (resolveIntent queue keys now s).state
        updatedJoints := none
        queueCleared := (resolveIntent queue keys now s).cleared
        rendered := some (computeGait M base now
          (decide ((physicsStep M objects delta (resolveIntent queue keys now s).forward
            (resolveIntent queue keys now s).turn (resolveIntent queue keys now s).jump
            (resolveIntent queue keys now s).state).y > GROUND_Y + 0.1))
          (decide ((resolveIntent queue keys now s).forward ≠ 0 ∨
            (resolveIntent queue keys now s).turn ≠ 0))) } := by
  simp only [tick]
  rw [hE]

/-- Characterization of a tick taking the early `SET_JOINTS` return. -/
theorem tick_eq_some (M : MathFns) (queue : List RobotCommand) (keys : KeyState)
    (objects : List Vec3) (now delta : ℚ) (base : JointState) (s : RobotState)
    (tj : JointState)
    (hE : (resolveIntent queue keys now s).earlyJoints = some tj) :
    tick M queue keys objects now delta base s =
      { state := (resolveIntent queue keys now s).state
        updatedJoints := some tj
        queueCleared := (resolveIntent queue keys now s).cleared
        rendered := none } := by
  simp only [tick]
  rw [hE]

/-- Vertical part of the physics step: jump impulse, gravity, vertical
integration and ground clamp. -/
theorem physicsStep_vert (M : MathFns) (objects : List Vec3) (delta : ℚ)
    (forward turn : ℚ) (jump : Bool) (s : RobotState) (vv1 y1 : ℚ)
    (h1 : vv1 = (if jump = true ∧ s.y ≤ GROUND_Y + 0.01 then JUMP_FORCE else s.vv)
            - GRAVITY * delta)
    (h2 : y1 = s.y + vv1 * delta) :
    (physicsStep M objects delta forward turn jump s).vv
        = (if y1 < GROUND_Y then 0 else vv1) ∧
    (physicsStep M objects delta forward turn jump s).y
        = (if y1 < GROUND_Y then GROUND_Y else y1) := by
  subst h1 h2
  unfold physicsStep
  exact ⟨rfl, rfl⟩

/-- The physics step never leaves the robot below ground level, except
that it keeps the input height when that height is already compliant. -/
theorem physicsStep_y_ge (M : MathFns) (objects : List Vec3) (delta : ℚ)
    (forward turn : ℚ) (jump : Bool) (s : RobotState) :
    GROUND_Y ≤ (physicsStep M objects delta forward turn jump s).y := by
  unfold physicsStep
  simp only
  split_ifs <;> simp_all [not_lt]

/-- Yaw part of the physics step. -/
theorem physicsStep_rot (M : MathFns) (objects : List Vec3) (delta : ℚ)
    (forward turn : ℚ) (jump : Bool) (s : RobotState) :
    (physicsStep M objects delta forward turn jump s).rot
      = (if turn ≠ 0 then s.rot + turn * ROT_SPEED * delta else s.rot) := rfl

/-- Horizontal part of the physics step with forward intent: the
candidate position is committed exactly when no tracked object collides
with it. -/
theorem physicsStep_horiz (M : MathFns) (objects : List Vec3) (delta : ℚ)
    (forward turn : ℚ) (jump : Bool) (s : RobotState) (nextX nextZ : ℚ)
    (hf : forward ≠ 0)
    (hX : nextX = s.x + M.sin (if turn ≠ 0 then s.rot + turn * ROT_SPEED * delta else s.rot)
            * (forward * MOVE_SPEED * delta))
    (hZ : nextZ = s.z + M.cos (if turn ≠ 0 then s.rot + turn * ROT_SPEED * delta else s.rot)
            * (forward * MOVE_SPEED * delta)) :
    (physicsStep M objects delta forward turn jump s).x
        = (if collides objects s.y nextX nextZ then s.x else nextX) ∧
    (physicsStep M objects delta forward turn jump s).z
        = (if collides objects s.y nextX nextZ then s.z else nextZ) := by
  subst hX hZ
  unfold physicsStep
  refine ⟨?_, ?_⟩ <;> simp only [if_pos hf]

/-- Horizontal part of the physics step without forward intent: the
planar position is unchanged. -/
theorem physicsStep_horiz_zero (M : MathFns) (objects : List Vec3) (delta : ℚ)
    (turn : ℚ) (jump : Bool) (s : RobotState) :
    (physicsStep M objects delta 0 turn jump s).x = s.x ∧
    (physicsStep M objects delta 0 turn jump s).z = s.z := by
  unfold physicsStep
  refine ⟨?_, ?_⟩ <;> simp

/-! ### Concrete fixtures for witnesses and counterexamples -/

/-- A concrete interpretation of the host math library. -/
def M0 : MathFns := { sin := fun _ => 0, cos := fun _ => 1, pi := 3 }

/-- No key held. -/
def keys0 : KeyState :=
  { keyW := false, keyS := false, keyA := false, keyD := false, keyJ := false
    arrowUp := false, arrowDown := false, arrowLeft := false, arrowRight := false }

/-- Only `W` held. -/
def keysW : KeyState := { keys0 with keyW := true }

/-- Only `J` held. -/
def keysJ : KeyState := { keys0 with keyJ := true }

/-- The all-zero base pose. -/
def base0 : JointState :=
  { FL_hip := 0, FL_thigh := 0, FL_calf := 0, FR_hip := 0, FR_thigh := 0, FR_calf := 0
    BL_hip := 0, BL_thigh := 0, BL_calf := 0, BR_hip := 0, BR_thigh := 0, BR_calf := 0 }

/-- A distinguishable target pose. -/
def pose1 : JointState := { base0 with FL_thigh := 1 }

/-- A well-formed `SET_JOINTS` command. -/
def sjCmd : RobotCommand :=
  { type := "SET_JOINTS", duration := none, targetJoints := some pose1, description := none }

/-- A malformed `SET_JOINTS` command missing `targetJoints`. -/
def sjBad : RobotCommand :=
  { type := "SET_JOINTS", duration := none, targetJoints := none, description := none }

/-- A command with an unknown type tag. -/
def unkCmd : RobotCommand :=
  { type := "DANCE", duration := none, targetJoints := none, description := none }

/-- Executing state at the initial airborne height, one-element queue installed. -/
def s0 : RobotState :=
  { x := 0, y := 2, z := 0, rot := 0, vv := 0, cmdIndex := 0, cmdStartTime := 0
    isExecuting := true, lastQueueLength := 1 }

/-- Idle state resting on the ground. -/
def sGround : RobotState :=
  { x := 0, y := GROUND_Y, z := 0, rot := 0, vv := 0, cmdIndex := 0, cmdStartTime := 0
    isExecuting := false, lastQueueLength := 0 }

/-- A tracked object whose planar distance to the candidate position in the
`C2` witness is exactly `COLLISION_DIST`. -/
def obj1 : Vec3 := { x := 0, y := GROUND_Y, z := 0.7 }

/-- A falling object about to penetrate the ground. -/
def objFall : ObjState := { x := 0, y := 1, z := 0, velocity := -10 }

/-- An object at permanent rest. -/
def objRest : ObjState := { x := 0, y := 0.15, z := 0, velocity := 0 }

/-- Idle airborne state (no queue, nothing executing). -/
def sAir : RobotState :=
  { x := 0, y := 2, z := 0, rot := 0, vv := 0, cmdIndex := 0, cmdStartTime := 0
    isExecuting := false, lastQueueLength := 0 }

/-- A tracked object strictly inside the collision thresholds of the `C2`
witness candidate. -/
def obj2 : Vec3 := { x := 0, y := GROUND_Y, z := 0.65 }

/-! ### Claim theorems -/

/-- Claim C3 (confirmed): queue installation (re)starts execution — `commandIndex`
reset to 0, `commandStartTime` reset to 0, `isExecuting` set true — exactly when
the installed queue's length differs from `lastQueueLength` and is positive;
replacing the queue with one of the same length resets nothing, and an empty
queue forces `isExecuting` false. -/
theorem C3_queue_admission (queue : List RobotCommand) (s : RobotState) :
    (queue.length ≠ s.lastQueueLength → 0 < queue.length →
      installQueue queue s =
        { s with cmdIndex := 0, cmdStartTime := 0, isExecuting := true
                 lastQueueLength := queue.length }) ∧
    (queue.length = s.lastQueueLength ∨ queue.length = 0 →
      (installQueue queue s).cmdIndex = s.cmdIndex ∧
      (installQueue queue s).cmdStartTime = s.cmdStartTime ∧
      ((installQueue queue s).isExecuting = true → s.isExecuting = true)) ∧
    (queue.length = s.lastQueueLength → 0 < queue.length →
      (installQueue queue s).isExecuting = s.isExecuting) ∧
    (queue.length = 0 → (installQueue queue s).isExecuting = false) := by
  simp only [installQueue]
  split_ifs with h1 h2 <;>
    refine ⟨?_, ?_, ?_, ?_⟩ <;> intros <;> simp_all

/-- Witness for C3: a fresh length-1 queue over `lastQueueLength = 0` restarts
execution, while re-installing a length-1 queue over `lastQueueLength = 1`
leaves `commandIndex` and `isExecuting` untouched. -/
theorem C3_witness :
    installQueue [sjCmd] sGround =
      { sGround with cmdIndex := 0, cmdStartTime := 0, isExecuting := true
                     lastQueueLength := 1 } ∧
    (installQueue [sjCmd] s0).cmdIndex = s0.cmdIndex ∧
    (installQueue [sjCmd] s0).isExecuting = s0.isExecuting :=
  ⟨(C3_queue_admission [sjCmd] sGround).1 (by decide) (by decide),
   ((C3_queue_admission [sjCmd] s0).2.1 (Or.inl (by decide))).1,
   (C3_queue_admission [sjCmd] s0).2.2.1 (by decide) (by decide)⟩

/-- Claim C6 (confirmed): on an integrating object tick that penetrates the
ground (`y1 < 0.15`), the integrator snaps `y` to the rest threshold and sets
the velocity to the reflected impact velocity scaled by restitution 0.4, zeroed
when the reflected speed is below the 0.5 floor; and the rest state is a fixed
point of the integrator, so rest is permanent (no micro-bouncing). -/
theorem C6_restitution (delta : ℚ) (s : ObjState) (v1 y1 : ℚ)
    (hv1 : v1 = s.velocity - GRAVITY * delta)
    (hy1 : y1 = s.y + v1 * delta) :
    (s.y > 0.1501 ∨ |s.velocity| > 0.01 → y1 < 0.15 →
      objTick delta s =
        { s with y := 0.15
                 velocity := if |-v1 * 0.4| < 0.5 then 0 else -v1 * 0.4 }) ∧
    objTick delta { s with y := 0.15, velocity := 0 }
      = { s with y := 0.15, velocity := 0 } := by
  subst hv1 hy1
  constructor
  · intro hg hp
    simp only [objTick]
    rw [if_pos hg, if_pos hp]
  · have hg : ¬(({ s with y := 0.15, velocity := 0 } : ObjState).y > 0.1501 ∨
        |({ s with y := 0.15, velocity := 0 } : ObjState).velocity| > 0.01) := by
      norm_num
    simp only [objTick]
    rw [if_neg hg]

/-- Witness for C6: a falling object at height 1 with velocity -10 and
`delta = 1/10` penetrates, snaps to 0.15 and rebounds at `4.8 = 12 * 0.4`;
the rest state is unchanged by a further tick. -/
theorem C6_witness :
    objTick (1/10) objFall = { objFall with y := 0.15, velocity := 4.8 } ∧
    objTick (1/10) objRest = objRest :=
  ⟨((C6_restitution (1/10) objFall (-12) (-1/5) (by norm_num [objFall, GRAVITY])
      (by norm_num [objFall])).1
      (by norm_num [objFall]) (by norm_num)).trans (by
        have habs : |(24/5 : ℚ)| = 24/5 := abs_of_pos (by norm_num)
        norm_num [objFall, habs]),
   (C6_restitution (1/10) objRest (-2) (-1/20) (by norm_num [objRest, GRAVITY])
      (by norm_num [objRest])).2⟩

/-- Claim C9 (confirmed): on a tick where `isExecuting` holds and `commandIndex`
is within the queue bounds, the held-key state has no effect: the entire tick
result (robot position, yaw, vertical velocity, command state and outputs) is
identical for any two key states. -/
theorem C9_keys_noninterference (M : MathFns) (queue : List RobotCommand)
    (k1 k2 : KeyState) (objects : List Vec3) (now delta : ℚ) (base : JointState)
    (s : RobotState) (h1 : s.isExecuting = true) (h2 : s.cmdIndex < queue.length) :
    tick M queue k1 objects now delta base s = tick M queue k2 objects now delta base s := by
  have hres : resolveIntent queue k1 now s = resolveIntent queue k2 now s := by
    unfold resolveIntent
    rw [dif_pos ⟨h1, h2⟩, dif_pos ⟨h1, h2⟩]
  unfold tick
  rw [hres]

/-- Witness for C9: with a `SET_JOINTS` queue executing, holding `W` changes
nothing about the tick. -/
theorem C9_witness :
    tick M0 [sjCmd] keysW [] 1 (1/60) base0 s0
      = tick M0 [sjCmd] keys0 [] 1 (1/60) base0 s0 :=
  C9_keys_noninterference M0 [sjCmd] keysW keys0 [] 1 (1/60) base0 s0 (by decide) (by decide)

/-- Claim C10 (confirmed): every tick preserves `position.y >= GROUND_Y` — the
ground clamp snaps penetration back to `GROUND_Y`, and the early-returning
`SET_JOINTS` tick leaves `y` unchanged. -/
theorem C10_ground_invariant (M : MathFns) (queue : List RobotCommand)
    (keys : KeyState) (objects : List Vec3) (now delta : ℚ) (base : JointState)
    (s : RobotState) (h : GROUND_Y ≤ s.y) :
    GROUND_Y ≤ (tick M queue keys objects now delta base s).state.y := by
  cases hE : (resolveIntent queue keys now s).earlyJoints with
  | some tj =>
      have hy : (tick M queue keys objects now delta base s).state.y = s.y := by
        rw [tick_eq_some M queue keys objects now delta base s tj hE]
        exact (resolveIntent_phys queue keys now s).2.1
      exact le_of_le_of_eq h hy.symm
  | none =>
      rw [tick_eq_none M queue keys objects now delta base s hE]
      exact physicsStep_y_ge M objects delta _ _ _ _

/-- Witness for C10: a tick from rest on the ground stays at or above
`GROUND_Y`. -/
theorem C10_witness :
    GROUND_Y ≤ (tick M0 [] keys0 [] 1 (1/60) base0 sGround).state.y :=
  C10_ground_invariant M0 [] keys0 [] 1 (1/60) base0 sGround (le_refl GROUND_Y)

/-- Claim C7 (confirmed): a tick whose resolved intent is `forward = 0`,
`turn = 0`, `jump = false` leaves x, z and yaw unchanged; only the vertical
component changes, integrating gravity toward `GROUND_Y`, with
`verticalVelocity` zeroed when the ground clamp fires. -/
theorem C7_idle_tick (M : MathFns) (queue : List RobotCommand) (keys : KeyState)
    (objects : List Vec3) (now delta : ℚ) (base : JointState) (s : RobotState)
    (vv1 y1 : ℚ)
    (hE : (resolveIntent queue keys now s).earlyJoints = none)
    (hf : (resolveIntent queue keys now s).forward = 0)
    (ht : (resolveIntent queue keys now s).turn = 0)
    (hj : (resolveIntent queue keys now s).jump = false)
    (hvv1 : vv1 = s.vv - GRAVITY * delta)
    (hy1 : y1 = s.y + vv1 * delta) :
    (tick M queue keys objects now delta base s).state.x = s.x ∧
    (tick M queue keys objects now delta base s).state.z = s.z ∧
    (tick M queue keys objects now delta base s).state.rot = s.rot ∧
    (tick M queue keys objects now delta base s).state.y
      = (if y1 < GROUND_Y then GROUND_Y else y1) ∧
    (tick M queue keys objects now delta base s).state.vv
      = (if y1 < GROUND_Y then 0 else vv1) := by
  obtain ⟨hx, hy, hz, hrot, hvv⟩ := resolveIntent_phys queue keys now s
  rw [tick_eq_none M queue keys objects now delta base s hE, hf, ht, hj]
  dsimp only
  have hvert := physicsStep_vert M objects delta 0 0 false
      (resolveIntent queue keys now s).state vv1 y1
      (by simp only [Bool.false_eq_true, false_and, if_false, hvv]; exact hvv1)
      (by rw [hy]; exact hy1)
  refine ⟨?_, ?_, ?_, ?_, ?_⟩
  · exact (physicsStep_horiz_zero M objects delta 0 false _).1.trans hx
  · exact (physicsStep_horiz_zero M objects delta 0 false _).2.trans hz
  · rw [physicsStep_rot]
    simpa using hrot
  · exact hvert.2
  · exact hvert.1

/-- Witness for C7: an idle airborne tick keeps x, z and yaw and integrates
gravity only. -/
theorem C7_witness :
    (tick M0 [] keys0 [] 1 (1/60) base0 sAir).state.x = sAir.x ∧
    (tick M0 [] keys0 [] 1 (1/60) base0 sAir).state.z = sAir.z ∧
    (tick M0 [] keys0 [] 1 (1/60) base0 sAir).state.rot = sAir.rot ∧
    (tick M0 [] keys0 [] 1 (1/60) base0 sAir).state.y
      = (if (359/180 : ℚ) < GROUND_Y then GROUND_Y else 359/180) ∧
    (tick M0 [] keys0 [] 1 (1/60) base0 sAir).state.vv
      = (if (359/180 : ℚ) < GROUND_Y then 0 else -1/3) :=
  C7_idle_tick M0 [] keys0 [] 1 (1/60) base0 sAir (-1/3) (359/180)
    (by norm_num [resolveIntent, keysResult, keys0, sAir])
    (by norm_num [resolveIntent, keysResult, keys0, sAir])
    (by norm_num [resolveIntent, keysResult, keys0, sAir])
    (by norm_num [resolveIntent, keysResult, keys0, sAir])
    (by norm_num [sAir, GRAVITY])
    (by norm_num [sAir])

/-- Claim C2 (confirmed): on a tick with nonzero forward intent, the candidate
next (x, z) is committed iff no tracked object has squared planar distance to
it strictly below `COLLISION_DIST ^ 2` together with vertical separation
strictly below 0.5 (so a candidate exactly at the threshold is non-colliding);
any collision rejects the whole horizontal move for that tick. -/
theorem C2_collision_gate (M : MathFns) (queue : List RobotCommand) (keys : KeyState)
    (objects : List Vec3) (now delta : ℚ) (base : JointState) (s : RobotState)
    (f t nextX nextZ : ℚ)
    (hE : (resolveIntent queue keys now s).earlyJoints = none)
    (hfv : (resolveIntent queue keys now s).forward = f)
    (htv : (resolveIntent queue keys now s).turn = t)
    (hf : f ≠ 0)
    (hX : nextX = s.x + M.sin (if t ≠ 0 then s.rot + t * ROT_SPEED * delta else s.rot)
            * (f * MOVE_SPEED * delta))
    (hZ : nextZ = s.z + M.cos (if t ≠ 0 then s.rot + t * ROT_SPEED * delta else s.rot)
            * (f * MOVE_SPEED * delta)) :
    (collides objects s.y nextX nextZ →
      (tick M queue keys objects now delta base s).state.x = s.x ∧
      (tick M queue keys objects now delta base s).state.z = s.z) ∧
    (¬ collides objects s.y nextX nextZ →
      (tick M queue keys objects now delta base s).state.x = nextX ∧
      (tick M queue keys objects now delta base s).state.z = nextZ) := by
  obtain ⟨hx, hy, hz, hrot, hvv⟩ := resolveIntent_phys queue keys now s
  rw [tick_eq_none M queue keys objects now delta base s hE, hfv, htv]
  dsimp only
  have hX' : nextX = (resolveIntent queue keys now s).state.x
      + M.sin (if t ≠ 0 then (resolveIntent queue keys now s).state.rot + t * ROT_SPEED * delta
               else (resolveIntent queue keys now s).state.rot) * (f * MOVE_SPEED * delta) := by
    rw [hx, hrot]; exact hX
  have hZ' : nextZ = (resolveIntent queue keys now s).state.z
      + M.cos (if t ≠ 0 then (resolveIntent queue keys now s).state.rot + t * ROT_SPEED * delta
               else (resolveIntent queue keys now s).state.rot) * (f * MOVE_SPEED * delta) := by
    rw [hz, hrot]; exact hZ
  have h := physicsStep_horiz M objects delta f t (resolveIntent queue keys now s).jump
      (resolveIntent queue keys now s).state nextX nextZ hf hX' hZ'
  rw [hy] at h
  constructor
  · intro hc
    refine ⟨?_, ?_⟩
    · rw [h.1, if_pos hc]; exact hx
    · rw [h.2, if_pos hc]; exact hz
  · intro hc
    refine ⟨?_, ?_⟩
    · rw [h.1, if_neg hc]
    · rw [h.2, if_neg hc]

/-- Witness for C2: walking forward with an object exactly at the threshold
distance commits the move (boundary case), while an object strictly inside
the thresholds rejects it outright. -/
theorem C2_witness :
    (tick M0 [] keysW [obj1] 1 (1/15) base0 sGround).state.z = 1/10 ∧
    (tick M0 [] keysW [obj2] 1 (1/15) base0 sGround).state.z = sGround.z :=
  ⟨((C2_collision_gate M0 [] keysW [obj1] 1 (1/15) base0 sGround 1 0 0 (1/10)
      (by norm_num [resolveIntent, keysResult, keysW, keys0, sGround])
      (by norm_num [resolveIntent, keysResult, keysW, keys0, sGround])
      (by norm_num [resolveIntent, keysResult, keysW, keys0, sGround])
      (by norm_num)
      (by norm_num [M0, sGround, MOVE_SPEED])
      (by norm_num [M0, sGround, MOVE_SPEED])).2
      (by norm_num [collides, obj1, sGround, COLLISION_DIST, ROBOT_COLLISION_RADIUS,
        OBJECT_COLLISION_RADIUS, GROUND_Y])).2,
   ((C2_collision_gate M0 [] keysW [obj2] 1 (1/15) base0 sGround 1 0 0 (1/10)
      (by norm_num [resolveIntent, keysResult, keysW, keys0, sGround])
      (by norm_num [resolveIntent, keysResult, keysW, keys0, sGround])
      (by norm_num [resolveIntent, keysResult, keysW, keys0, sGround])
      (by norm_num)
      (by norm_num [M0, sGround, MOVE_SPEED])
      (by norm_num [M0, sGround, MOVE_SPEED])).1
      (by norm_num [collides, obj2, sGround, COLLISION_DIST, ROBOT_COLLISION_RADIUS,
        OBJECT_COLLISION_RADIUS, GROUND_Y])).2⟩

/-- Claim C1 is refuted: the tick that starts a `SET_JOINTS` command with
`targetJoints` present returns before the physics block (source line 156), so
the gravity/vertical integration step is skipped: from `vv = 0`, `y = 2` the
tick leaves both unchanged instead of integrating gravity. -/
theorem C1_counterexample :
    (tick M0 [sjCmd] keys0 [] 1 (1/60) base0 s0).state.vv = 0 ∧
    (tick M0 [sjCmd] keys0 [] 1 (1/60) base0 s0).state.y = 2 ∧
    s0.vv - GRAVITY * (1/60) ≠ 0 := by
  refine ⟨?_, ?_, by norm_num [s0, GRAVITY]⟩ <;>
    norm_num [tick, resolveIntent, timedPhase, keysResult, physicsStep, computeGait,
      collides, durationOrDefault, M0, keys0, base0, pose1, sjCmd, s0,
      GROUND_Y, GRAVITY, MOVE_SPEED, ROT_SPEED, JUMP_FORCE]

/-- Claim C1 (amended, proved): the physics integration executes on every tick
EXCEPT the tick that starts a `SET_JOINTS` command with `targetJoints`
present, which applies the pose and returns early, leaving position, yaw and
`verticalVelocity` untouched; on every other tick the gravity subtraction,
vertical position update and ground clamp execute, regardless of whether the
intent came from a command or from the keyboard. -/
theorem C1_amended (M : MathFns) (queue : List RobotCommand) (keys : KeyState)
    (objects : List Vec3) (now delta : ℚ) (base : JointState) (s : RobotState)
    (vv1 y1 : ℚ)
    (hvv1 : vv1 = (if (resolveIntent queue keys now s).jump = true ∧ s.y ≤ GROUND_Y + 0.01
              then JUMP_FORCE else s.vv) - GRAVITY * delta)
    (hy1 : y1 = s.y + vv1 * delta) :
    (∀ tj, (resolveIntent queue keys now s).earlyJoints = some tj →
      (tick M queue keys objects now delta base s).state.x = s.x ∧
      (tick M queue keys objects now delta base s).state.y = s.y ∧
      (tick M queue keys objects now delta base s).state.z = s.z ∧
      (tick M queue keys objects now delta base s).state.rot = s.rot ∧
      (tick M queue keys objects now delta base s).state.vv = s.vv) ∧
    ((resolveIntent queue keys now s).earlyJoints = none →
      (tick M queue keys objects now delta base s).state.vv
        = (if y1 < GROUND_Y then 0 else vv1) ∧
      (tick M queue keys objects now delta base s).state.y
        = (if y1 < GROUND_Y then GROUND_Y else y1)) := by
  obtain ⟨hx, hy, hz, hrot, hvv⟩ := resolveIntent_phys queue keys now s
  constructor
  · intro tj hE
    rw [tick_eq_some M queue keys objects now delta base s tj hE]
    exact ⟨hx, hy, hz, hrot, hvv⟩
  · intro hE
    rw [tick_eq_none M queue keys objects now delta base s hE]
    dsimp only
    exact physicsStep_vert M objects delta _ _ _ _ vv1 y1
      (by rw [hy, hvv]; exact hvv1) (by rw [hy]; exact hy1)

/-- Witness for the amended C1: the `SET_JOINTS`-starting tick leaves the
vertical state untouched, while an ordinary idle tick applies gravity. -/
theorem C1_witness :
    (tick M0 [sjCmd] keys0 [] 1 (1/60) base0 s0).state.vv = s0.vv ∧
    (tick M0 [] keys0 [] 1 (1/60) base0 sAir).state.vv = -1/3 :=
  ⟨((C1_amended M0 [sjCmd] keys0 [] 1 (1/60) base0 s0 (-1/3) (359/180)
      (by norm_num [resolveIntent, timedPhase, keysResult, keys0, sjCmd, pose1, s0,
        GRAVITY, GROUND_Y, JUMP_FORCE])
      (by norm_num [s0])).1 pose1
      (by norm_num [resolveIntent, timedPhase, keysResult, keys0, sjCmd, pose1, s0])).2.2.2.2,
   ((C1_amended M0 [] keys0 [] 1 (1/60) base0 sAir (-1/3) (359/180)
      (by norm_num [resolveIntent, keysResult, keys0, sAir, GRAVITY, GROUND_Y, JUMP_FORCE])
      (by norm_num [sAir])).2
      (by norm_num [resolveIntent, keysResult, keys0, sAir])).1.trans
     (by norm_num [GROUND_Y])⟩

/-- Claim C5 is refuted in its first half: a jump tick sets
`verticalVelocity = JUMP_FORCE` during the tick, but the same tick then
subtracts `GRAVITY * delta`, so immediately after the tick the velocity is
`JUMP_FORCE - GRAVITY * delta`, not `JUMP_FORCE`. -/
theorem C5_counterexample :
    sGround.y = GROUND_Y ∧
    (resolveIntent [] keysJ 1 sGround).jump = true ∧
    (tick M0 [] keysJ [] 1 (1/100) base0 sGround).state.vv ≠ JUMP_FORCE ∧
    (tick M0 [] keysJ [] 1 (1/100) base0 sGround).state.vv
      = JUMP_FORCE - GRAVITY * (1/100) := by
  refine ⟨rfl, ?_, ?_, ?_⟩ <;>
    norm_num [tick, resolveIntent, timedPhase, keysResult, physicsStep, computeGait,
      collides, durationOrDefault, M0, keys0, keysJ, base0, sGround,
      GROUND_Y, GRAVITY, MOVE_SPEED, ROT_SPEED, JUMP_FORCE]

/-- Claim C5 (amended, proved): a `JUMP` issued on a tick where
`position.y = GROUND_Y` sets `verticalVelocity` to `JUMP_FORCE` during the
tick, so immediately after that tick `verticalVelocity =
JUMP_FORCE - GRAVITY * delta`; and `verticalVelocity` strictly decreases on
every subsequent tick while the robot is airborne (until the ground clamp
zeroes it on landing). -/
theorem C5_amended (M : MathFns) (queue : List RobotCommand) (keys : KeyState)
    (objects : List Vec3) (now delta : ℚ) (base : JointState) (s : RobotState)
    (hE : (resolveIntent queue keys now s).earlyJoints = none)
    (hd : 0 < delta) :
    ((resolveIntent queue keys now s).jump = true → s.y = GROUND_Y → delta ≤ 2/5 →
      (tick M queue keys objects now delta base s).state.vv
        = JUMP_FORCE - GRAVITY * delta) ∧
    (GROUND_Y + 0.01 < s.y →
      (tick M queue keys objects now delta base s).state.vv < s.vv ∨
      ((tick M queue keys objects now delta base s).state.y = GROUND_Y ∧
       (tick M queue keys objects now delta base s).state.vv = 0)) := by
  obtain ⟨hx, hy, hz, hrot, hvv⟩ := resolveIntent_phys queue keys now s
  rw [tick_eq_none M queue keys objects now delta base s hE]
  dsimp only
  constructor
  · intro hj hy0 hd2
    have hcond : (resolveIntent queue keys now s).jump = true ∧
        (resolveIntent queue keys now s).state.y ≤ GROUND_Y + 0.01 := by
      refine ⟨hj, ?_⟩
      rw [hy, hy0]
      norm_num
    have hvert := physicsStep_vert M objects delta
        (resolveIntent queue keys now s).forward (resolveIntent queue keys now s).turn
        (resolveIntent queue keys now s).jump (resolveIntent queue keys now s).state
        (JUMP_FORCE - GRAVITY * delta)
        (GROUND_Y + (JUMP_FORCE - GRAVITY * delta) * delta)
        (by rw [if_pos hcond]) (by rw [hy, hy0])
    rw [hvert.1, if_neg]
    have hnn : 0 ≤ (JUMP_FORCE - GRAVITY * delta) * delta := by
      have h8 : GRAVITY * delta ≤ JUMP_FORCE := by
        rw [GRAVITY, JUMP_FORCE]
        linarith
      exact mul_nonneg (by linarith) (le_of_lt hd)
    linarith
  · intro hair
    have hcond : ¬((resolveIntent queue keys now s).jump = true ∧
        (resolveIntent queue keys now s).state.y ≤ GROUND_Y + 0.01) := by
      rintro ⟨-, hle⟩
      rw [hy] at hle
      linarith
    have hvert := physicsStep_vert M objects delta
        (resolveIntent queue keys now s).forward (resolveIntent queue keys now s).turn
        (resolveIntent queue keys now s).jump (resolveIntent queue keys now s).state
        (s.vv - GRAVITY * delta) (s.y + (s.vv - GRAVITY * delta) * delta)
        (by rw [if_neg hcond, hvv]) (by rw [hy])
    by_cases hclamp : s.y + (s.vv - GRAVITY * delta) * delta < GROUND_Y
    · right
      rw [hvert.1, hvert.2, if_pos hclamp, if_pos hclamp]
      exact ⟨rfl, rfl⟩
    · left
      rw [hvert.1, if_neg hclamp]
      have : 0 < GRAVITY * delta := by
        rw [GRAVITY]
        linarith
      linarith

/-- Witness for the amended C5: a keyboard jump at `delta = 1/100` ends the
tick at `8 - 0.2`, and a subsequent airborne tick strictly decreases the
velocity (or lands). -/
theorem C5_witness :
    (tick M0 [] keysJ [] 1 (1/100) base0 sGround).state.vv
      = JUMP_FORCE - GRAVITY * (1/100) ∧
    ((tick M0 [] keys0 [] 1 (1/60) base0 sAir).state.vv < sAir.vv ∨
     ((tick M0 [] keys0 [] 1 (1/60) base0 sAir).state.y = GROUND_Y ∧
      (tick M0 [] keys0 [] 1 (1/60) base0 sAir).state.vv = 0)) :=
  ⟨(C5_amended M0 [] keysJ [] 1 (1/100) base0 sGround
      (by norm_num [resolveIntent, keysResult, keys0, keysJ, sGround])
      (by norm_num)).1
      (by norm_num [resolveIntent, keysResult, keys0, keysJ, sGround])
      rfl (by norm_num),
   (C5_amended M0 [] keys0 [] 1 (1/60) base0 sAir
      (by norm_num [resolveIntent, keysResult, keys0, sAir])
      (by norm_num)).2
      (by norm_num [sAir, GROUND_Y])⟩

/-- Characterization of intent resolution when executing with the index in
bounds: the current command alone decides the outcome. -/
theorem resolveIntent_inbounds (queue : List RobotCommand) (keys : KeyState)
    (now : ℚ) (s : RobotState) (cmd : RobotCommand)
    (h1 : s.isExecuting = true) (h2 : s.cmdIndex < queue.length)
    (hc : queue.get ⟨s.cmdIndex, h2⟩ = cmd) :
    resolveIntent queue keys now s =
      (if s.cmdStartTime = 0 then
        if cmd.type = "SET_JOINTS" ∧ cmd.targetJoints.isSome = true then
          { earlyJoints := cmd.targetJoints, forward := 0, turn := 0, jump := false
            state := { s with cmdIndex := s.cmdIndex + 1, cmdStartTime := 0 }
            cleared := false }
        else if cmd.type = "JUMP" then
          timedPhase cmd now true { s with cmdIndex := s.cmdIndex + 1, cmdStartTime := 0 }
        else
          timedPhase cmd now false { s with cmdStartTime := now }
      else
        timedPhase cmd now false s) := by
  unfold resolveIntent
  rw [dif_pos ⟨h1, h2⟩]
  simp only [hc]

/-- Claim C4 (amended, proved): a command with an unknown type is a no-op for
the tick and still consumes its slot per the timing rules (its index advances
once `elapsed >= duration`); but a `SET_JOINTS` command missing `targetJoints`
is a no-op that NEVER consumes its slot — `commandIndex` does not advance on
any tick, stalling the queue permanently. -/
theorem C4_amended (queue : List RobotCommand) (keys : KeyState) (now : ℚ)
    (s : RobotState) (cmd : RobotCommand)
    (h1 : s.isExecuting = true) (h2 : s.cmdIndex < queue.length)
    (hc : queue.get ⟨s.cmdIndex, h2⟩ = cmd) :
    (cmd.type ∉ (["MOVE_FORWARD", "MOVE_BACKWARD", "TURN_LEFT", "TURN_RIGHT",
                  "JUMP", "WAIT", "SET_JOINTS"] : List String) →
      ((resolveIntent queue keys now s).earlyJoints = none ∧
       (resolveIntent queue keys now s).forward = 0 ∧
       (resolveIntent queue keys now s).turn = 0 ∧
       (resolveIntent queue keys now s).jump = false) ∧
      (¬ s.cmdStartTime = 0 → durationOrDefault cmd ≤ now - s.cmdStartTime →
        (resolveIntent queue keys now s).state.cmdIndex = s.cmdIndex + 1)) ∧
    (cmd.type = "SET_JOINTS" → cmd.targetJoints = none →
      (resolveIntent queue keys now s).earlyJoints = none ∧
      (resolveIntent queue keys now s).forward = 0 ∧
      (resolveIntent queue keys now s).turn = 0 ∧
      (resolveIntent queue keys now s).jump = false ∧
      (resolveIntent queue keys now s).state.cmdIndex = s.cmdIndex) := by
  rw [resolveIntent_inbounds queue keys now s cmd h1 h2 hc]
  constructor
  · intro hu
    simp only [List.mem_cons, List.not_mem_nil, or_false, not_or] at hu
    obtain ⟨hMF, hMB, hTL, hTR, hJ, hW, hSJ⟩ := hu
    constructor
    · split_ifs <;>
        simp_all [timedPhase, durationOrDefault] <;>
        split_ifs <;>
        exact ⟨rfl, rfl, rfl, rfl⟩
    · intro hst hdur
      rw [if_neg hst]
      simp only [timedPhase, hSJ, hJ, ne_eq, not_false_iff, true_and, if_true]
      rw [if_neg (not_lt.mpr hdur)]
  · intro hSJ hT
    have hisS : cmd.targetJoints.isSome = false := by rw [hT]; rfl
    split_ifs <;> simp_all [timedPhase]

/-- The physics step never touches the command-execution bookkeeping. -/
theorem physicsStep_exec (M : MathFns) (objects : List Vec3) (delta : ℚ)
    (forward turn : ℚ) (jump : Bool) (s : RobotState) :
    (physicsStep M objects delta forward turn jump s).cmdIndex = s.cmdIndex ∧
    (physicsStep M objects delta forward turn jump s).cmdStartTime = s.cmdStartTime ∧
    (physicsStep M objects delta forward turn jump s).isExecuting = s.isExecuting := by
  unfold physicsStep
  exact ⟨rfl, rfl, rfl⟩

/-- A tick on a stamped malformed `SET_JOINTS` command changes none of the
command-execution bookkeeping: the queue is stuck. -/
theorem sjBad_stall_step (M : MathFns) (objects : List Vec3) (now delta : ℚ)
    (base : JointState) (s : RobotState)
    (h1 : s.isExecuting = true) (h2 : s.cmdIndex = 0) (h3 : s.cmdStartTime ≠ 0) :
    (tick M [sjBad] keys0 objects now delta base s).state.cmdIndex = 0 ∧
    (tick M [sjBad] keys0 objects now delta base s).state.cmdStartTime = s.cmdStartTime ∧
    (tick M [sjBad] keys0 objects now delta base s).state.isExecuting = true := by
  have h2' : s.cmdIndex < ([sjBad] : List RobotCommand).length := by
    rw [h2]; decide
  have hri : resolveIntent [sjBad] keys0 now s =
      { earlyJoints := none, forward := 0, turn := 0, jump := false
        state := s, cleared := false } := by
    rw [resolveIntent_inbounds [sjBad] keys0 now s sjBad h1 h2' (by simp [h2])]
    rw [if_neg h3]
    simp [timedPhase, sjBad]
  rw [tick_eq_none M [sjBad] keys0 objects now delta base s (by rw [hri])]
  dsimp only
  rw [hri]
  obtain ⟨e1, e2, e3⟩ := physicsStep_exec M objects delta 0 0 false s
  exact ⟨e1.trans h2, e2, e3.trans h1⟩

/-- Claim C4 is refuted for malformed `SET_JOINTS`: after ticks at times 1, 2
and 5 (default duration 1.0, so the timing rules would long since have
consumed the slot), a queue holding one `SET_JOINTS` command without
`targetJoints` still has `commandIndex = 0` and is still executing. -/
theorem C4_counterexample :
    (tick M0 [sjBad] keys0 [] 5 (1/60) base0
      (tick M0 [sjBad] keys0 [] 2 (1/60) base0
        (tick M0 [sjBad] keys0 [] 1 (1/60) base0 s0).state).state).state.cmdIndex = 0 ∧
    (tick M0 [sjBad] keys0 [] 5 (1/60) base0
      (tick M0 [sjBad] keys0 [] 2 (1/60) base0
        (tick M0 [sjBad] keys0 [] 1 (1/60) base0 s0).state).state).state.isExecuting = true ∧
    durationOrDefault sjBad = 1 := by
  have r1 : resolveIntent [sjBad] keys0 1 s0 =
      { earlyJoints := none, forward := 0, turn := 0, jump := false
        state := { s0 with cmdStartTime := 1 }, cleared := false } := by
    rw [resolveIntent_inbounds [sjBad] keys0 1 s0 sjBad rfl (by decide) rfl]
    simp [s0, timedPhase, sjBad]
  have t1 : (tick M0 [sjBad] keys0 [] 1 (1/60) base0 s0).state.cmdIndex = 0 ∧
      (tick M0 [sjBad] keys0 [] 1 (1/60) base0 s0).state.cmdStartTime = 1 ∧
      (tick M0 [sjBad] keys0 [] 1 (1/60) base0 s0).state.isExecuting = true := by
    rw [tick_eq_none M0 [sjBad] keys0 [] 1 (1/60) base0 s0 (by rw [r1])]
    dsimp only
    rw [r1]
    obtain ⟨e1, e2, e3⟩ :=
      physicsStep_exec M0 [] (1/60) 0 0 false { s0 with cmdStartTime := 1 }
    exact ⟨e1.trans rfl, e2.trans rfl, e3.trans rfl⟩
  have t2 := sjBad_stall_step M0 [] 2 (1/60) base0
      (tick M0 [sjBad] keys0 [] 1 (1/60) base0 s0).state t1.2.2 t1.1
      (by rw [t1.2.1]; norm_num)
  have t3 := sjBad_stall_step M0 [] 5 (1/60) base0
      (tick M0 [sjBad] keys0 [] 2 (1/60) base0
        (tick M0 [sjBad] keys0 [] 1 (1/60) base0 s0).state).state t2.2.2 t2.1
      (by rw [t2.2.1, t1.2.1]; norm_num)
  exact ⟨t3.1, t3.2.2, by norm_num [durationOrDefault, sjBad]⟩

/-- Witness for the amended C4: an unknown-type command is a no-op whose slot
is consumed once elapsed time reaches the default duration, and the malformed
`SET_JOINTS` stalls at its index. -/
theorem C4_witness :
    (resolveIntent [unkCmd] keys0 5 { s0 with cmdStartTime := 1 }).forward = 0 ∧
    (resolveIntent [unkCmd] keys0 5 { s0 with cmdStartTime := 1 }).state.cmdIndex = 1 ∧
    (resolveIntent [sjBad] keys0 5 { s0 with cmdStartTime := 1 }).state.cmdIndex = 0 :=
  ⟨((C4_amended [unkCmd] keys0 5 { s0 with cmdStartTime := 1 } unkCmd rfl (by decide)
      rfl).1 (by decide)).1.2.1,
   ((C4_amended [unkCmd] keys0 5 { s0 with cmdStartTime := 1 } unkCmd rfl (by decide)
      rfl).1 (by decide)).2
      (by norm_num [s0]) (by norm_num [s0, durationOrDefault, unkCmd]),
   (((C4_amended [sjBad] keys0 5 { s0 with cmdStartTime := 1 } sjBad rfl (by decide)
      rfl).2 rfl rfl).2.2.2.2)⟩

/-- Claim C8 (confirmed): the rendered pose is recomputed every tick from the
base pose and never accumulates: airborne ticks force the fixed tuck on all
four thigh/calf pairs, moving ticks add the diagonal-pair sine offsets
`p1 = sin(t*GAIT_FREQ)` (legs FL and BR) and `p2 = sin(t*GAIT_FREQ + pi)`
(legs FR and BL) with thigh offset `+ p * GAIT_AMP` and calf offset
`- max 0 p * 0.5`, and idle ticks pass the base pose through unmodified. -/
theorem C8_gait_overlay (M : MathFns) (queue : List RobotCommand) (keys : KeyState)
    (objects : List Vec3) (now delta : ℚ) (base : JointState) (s : RobotState)
    (hE : (resolveIntent queue keys now s).earlyJoints = none) :
    (GROUND_Y + 0.1 < (tick M queue keys objects now delta base s).state.y →
      (tick M queue keys objects now delta base s).rendered = some
        { base with FL_thigh := 0.8, FR_thigh := 0.8, BL_thigh := 0.8, BR_thigh := 0.8
                    FL_calf := -1.8, FR_calf := -1.8, BL_calf := -1.8, BR_calf := -1.8 }) ∧
    (¬ GROUND_Y + 0.1 < (tick M queue keys objects now delta base s).state.y →
      ((resolveIntent queue keys now s).forward ≠ 0 ∨
       (resolveIntent queue keys now s).turn ≠ 0) →
      (tick M queue keys objects now delta base s).rendered = some
        { base with
            FL_thigh := base.FL_thigh + M.sin (now * GAIT_FREQ) * GAIT_AMP
            BR_thigh := base.BR_thigh + M.sin (now * GAIT_FREQ) * GAIT_AMP
            FR_thigh := base.FR_thigh + M.sin (now * GAIT_FREQ + M.pi) * GAIT_AMP
            BL_thigh := base.BL_thigh + M.sin (now * GAIT_FREQ + M.pi) * GAIT_AMP
            FL_calf := base.FL_calf - max 0 (M.sin (now * GAIT_FREQ)) * 0.5
            BR_calf := base.BR_calf - max 0 (M.sin (now * GAIT_FREQ)) * 0.5
            FR_calf := base.FR_calf - max 0 (M.sin (now * GAIT_FREQ + M.pi)) * 0.5
            BL_calf := base.BL_calf - max 0 (M.sin (now * GAIT_FREQ + M.pi)) * 0.5 }) ∧
    (¬ GROUND_Y + 0.1 < (tick M queue keys objects now delta base s).state.y →
      (resolveIntent queue keys now s).forward = 0 →
      (resolveIntent queue keys now s).turn = 0 →
      (tick M queue keys objects now delta base s).rendered = some base) := by
  rw [tick_eq_none M queue keys objects now delta base s hE]
  dsimp only
  refine ⟨?_, ?_, ?_⟩
  · intro hair
    rw [decide_eq_true hair]
    simp [computeGait]
  · intro hair hmove
    rw [decide_eq_false hair, decide_eq_true hmove]
    simp [computeGait]
  · intro hair hf ht
    rw [decide_eq_false hair, hf, ht]
    norm_num [computeGait]

/-- Witness for C8: an airborne tick renders the tuck pose, a moving ground
tick renders the sine-offset pose, and an idle ground tick renders the base
pose unchanged. -/
theorem C8_witness :
    (tick M0 [] keys0 [] 1 (1/60) base0 sAir).rendered = some
      { base0 with FL_thigh := 0.8, FR_thigh := 0.8, BL_thigh := 0.8, BR_thigh := 0.8
                   FL_calf := -1.8, FR_calf := -1.8, BL_calf := -1.8, BR_calf := -1.8 } ∧
    (tick M0 [] keysW [] 1 (1/60) base0 sGround).rendered = some
      { base0 with
          FL_thigh := base0.FL_thigh + M0.sin (1 * GAIT_FREQ) * GAIT_AMP
          BR_thigh := base0.BR_thigh + M0.sin (1 * GAIT_FREQ) * GAIT_AMP
          FR_thigh := base0.FR_thigh + M0.sin (1 * GAIT_FREQ + M0.pi) * GAIT_AMP
          BL_thigh := base0.BL_thigh + M0.sin (1 * GAIT_FREQ + M0.pi) * GAIT_AMP
          FL_calf := base0.FL_calf - max 0 (M0.sin (1 * GAIT_FREQ)) * 0.5
          BR_calf := base0.BR_calf - max 0 (M0.sin (1 * GAIT_FREQ)) * 0.5
          FR_calf := base0.FR_calf - max 0 (M0.sin (1 * GAIT_FREQ + M0.pi)) * 0.5
          BL_calf := base0.BL_calf - max 0 (M0.sin (1 * GAIT_FREQ + M0.pi)) * 0.5 } ∧
    (tick M0 [] keys0 [] 1 (1/60) base0 sGround).rendered = some base0 :=
  ⟨(C8_gait_overlay M0 [] keys0 [] 1 (1/60) base0 sAir
      (by norm_num [resolveIntent, keysResult, keys0, sAir])).1
      (by norm_num [tick, resolveIntent, timedPhase, keysResult, physicsStep, computeGait,
        collides, M0, keys0, base0, sAir, GROUND_Y, GRAVITY, MOVE_SPEED, ROT_SPEED,
        JUMP_FORCE]),
   ((C8_gait_overlay M0 [] keysW [] 1 (1/60) base0 sGround
      (by norm_num [resolveIntent, keysResult, keysW, keys0, sGround])).2.1
      (by norm_num [tick, resolveIntent, timedPhase, keysResult, physicsStep, computeGait,
        collides, M0, keys0, keysW, base0, sGround, GROUND_Y, GRAVITY, MOVE_SPEED,
        ROT_SPEED, JUMP_FORCE])
      (by norm_num [resolveIntent, keysResult, keysW, keys0, sGround])),
   (C8_gait_overlay M0 [] keys0 [] 1 (1/60) base0 sGround
      (by norm_num [resolveIntent, keysResult, keys0, sGround])).2.2
      (by norm_num [tick, resolveIntent, timedPhase, keysResult, physicsStep, computeGait,
        collides, M0, keys0, base0, sGround, GROUND_Y, GRAVITY, MOVE_SPEED, ROT_SPEED,
        JUMP_FORCE])
      (by norm_num [resolveIntent, keysResult, keys0, sGround])
      (by norm_num [resolveIntent, keysResult, keys0, sGround])⟩

end RoboticsLab
